import Mathlib

/-!
Verification of `containers/osbuild-composer/entrypoint.py`.

The file shallowly embeds the entrypoint: the `Cli._prepare_sockets` socket
preparation (systemd-style socket activation), the three spawn helpers
(`_spawn_worker`, `_spawn_dnf_json`, `_spawn_composer`), the supervision loop
`Cli.run` with its `KeyboardInterrupt` and bare `except` handlers, and the
`ExitStack` teardown performed by `Cli.__exit__`.

Modelling conventions:
- OS file descriptors are allocated lowest-free-first, with descriptors 0, 1, 2
  (the standard streams) open at startup; this is the POSIX rule the source's
  `assert(sock.fileno() == index)` relies on.
- `os.environ` and per-child environments are association lists where an update
  conses a new binding that shadows older ones (matching dict lookup of the
  latest value).
- Fallible OS calls (bind/listen, `subprocess.Popen`) are driven by a `World`
  oracle saying which call fails, what pid a child gets, and which exit code a
  wait observes.  A `KeyboardInterrupt` can be delivered at the single blocking
  point of the program, the wait on the composer process, matching the spec's
  concurrency model.
- The run produces a trace of observable events (socket created/closed, child
  spawned / preexec hook ran / exec started / terminated / killed / waited)
  about which the claims are stated.
-/

namespace Entrypoint

/-- The three child-process roles the entrypoint can spawn:
`osbuild-worker`, `dnf-json` and `osbuild-composer`. -/
inductive Role
  | worker
  | dnfJson
  | composer
deriving DecidableEq

/-- Python exceptions relevant to the entrypoint: `OSError` from bind/listen,
`OSError` from `Popen`, `AssertionError` from the fd-number asserts, and
`KeyboardInterrupt`. -/
inductive Err
  | bindError
  | spawnError
  | assertError
  | keyboardInterrupt
deriving DecidableEq

/-- Observable events of one run. -/
inductive Event
  | sockCreated (fd : Nat)
  | sockClosed (fd : Nat)
  | spawned (r : Role)
  | preexecRan (r : Role)
  | execStarted (r : Role)
  | terminated (r : Role)
  | killed (r : Role)
  | waited (r : Role)
deriving DecidableEq

/-- Environments (`os.environ` and the per-child copies) as association lists;
the first binding of a key wins, and an update conses a fresh binding. -/
abbrev Env : Type := List (String × String)

/-- Dictionary update: `env[k] = v`. -/
def envSet (e : Env) (k v : String) : Env := (k, v) :: e

/-- Dictionary lookup: `env.get(k)`. -/
def envGet : Env → String → Option String
  | [], _ => none
  | (k', v) :: e, k => if k' = k then some v else envGet e k

/-- Lowest-free fd search: starting from `start`, skip over descriptors in
`used`; `fuel` bounds the search (enough fuel always exists). -/
def lowestFreeGo (used : List Nat) : Nat → Nat → Nat
  | 0, start => start
  | fuel + 1, start =>
    if used.contains start then lowestFreeGo used fuel (start + 1) else start

/-- POSIX fd allocation: the lowest descriptor not currently open. -/
def lowestFree (used : List Nat) : Nat := lowestFreeGo used (used.length + 1) 0

/-- Count the events satisfying a predicate. -/
def countEv (p : Event → Bool) : List Event → Nat
  | [] => 0
  | e :: es => (if p e then 1 else 0) + countEv p es

/-- Index of the first event satisfying a predicate. -/
def firstIdx (p : Event → Bool) : List Event → Option Nat
  | [] => none
  | e :: es => if p e then some 0 else (firstIdx p es).map (· + 1)

/-- `true` when both kinds of event occur and the first `p`-event strictly
precedes the first `q`-event. -/
def beforeB (p q : Event → Bool) (tr : List Event) : Bool :=
  match firstIdx p tr, firstIdx q tr with
  | some i, some j => decide (i < j)
  | _, _ => false

def isSockCreated (fd : Nat) : Event → Bool
  | .sockCreated fd' => decide (fd' = fd)
  | _ => false

def isSockClosed (fd : Nat) : Event → Bool
  | .sockClosed fd' => decide (fd' = fd)
  | _ => false

def isSpawned (r : Role) : Event → Bool
  | .spawned r' => decide (r' = r)
  | _ => false

def isTerminated (r : Role) : Event → Bool
  | .terminated r' => decide (r' = r)
  | _ => false

def isKilled (r : Role) : Event → Bool
  | .killed r' => decide (r' = r)
  | _ => false

def isWaited (r : Role) : Event → Bool
  | .waited r' => decide (r' = r)
  | _ => false

def isTerminatedAny : Event → Bool
  | .terminated _ => true
  | _ => false

def isWaitedAny : Event → Bool
  | .waited _ => true
  | _ => false

/-- The parsed command-line flags of the entrypoint (`Cli._parse_args`),
including the `builtin_worker` default that has no command-line switch. -/
structure Args where
  builtin_worker : Bool
  composer_api : Bool
  composer_api_port : Nat
  local_worker_api : Bool
  remote_worker_api : Bool
  weldr_api : Bool
  dnf_json : Bool
  dnf_json_port : Nat
deriving DecidableEq

/-- Which of the five bind/listen callsites fail with an `OSError`. -/
structure BindFails where
  weldr : Bool
  composerApi : Bool
  localWorker : Bool
  remoteWorker : Bool
  dnfJson : Bool
deriving DecidableEq

/-- Which of the three `subprocess.Popen` calls fail with an `OSError`. -/
structure SpawnFails where
  worker : Bool
  dnfJson : Bool
  composer : Bool
deriving DecidableEq

/-- The environment oracle for one run: which OS calls fail, the pid the OS
gives each child, the exit code each wait observes, and whether a
`KeyboardInterrupt` arrives at the blocking wait on the composer. -/
structure World where
  bf : BindFails
  sf : SpawnFails
  pidOf : Role → Nat
  exitCode : Role → Int
  interruptAtWait : Bool

/-- A child process handle: role, pid, the environment the exec'd program
sees, and the descriptors passed down (`pass_fds`). -/
structure Child where
  role : Role
  pid : Nat
  env : Env
  passFds : List Nat
deriving DecidableEq

/-- Supervisor state: the open descriptors of the entrypoint process, the
`ExitStack` of sockets registered for closing (most recent first), the global
`os.environ`, the event trace, and the children created so far. -/
structure St where
  openFds : List Nat
  stack : List Nat
  environ : Env
  trace : List Event
  children : List Child

/-- State at `Cli.__enter__`: the three standard streams are open, the
`ExitStack` is fresh, and `os.environ` holds the inherited environment. -/
def initSt (env0 : Env) : St :=
  { openFds := [0, 1, 2], stack := [], environ := env0, trace := [], children := [] }

/-- `socket.socket(...)`: allocate the lowest free descriptor. -/
def socketCreate (st : St) : Nat × St :=
  let fd := lowestFree st.openFds
  (fd, { st with openFds := fd :: st.openFds, trace := st.trace ++ [.sockCreated fd] })

/-- `self._exitstack.enter_context(contextlib.closing(sock))`: register the
socket for closing. -/
def enterClosing (fd : Nat) (st : St) : St :=
  { st with stack := fd :: st.stack }

/-- Intermediate state of `Cli._prepare_sockets`: the running fd index, the
`sockets` and `names` accumulators, and the supervisor state. -/
structure Prep where
  index : Nat
  sockets : List Nat
  names : List String
  st : St

/-- One `if self.args.<feature>:` block of `Cli._prepare_sockets`: create the
socket, register it on the exit stack, bind and listen (which may raise), add
it to `sockets` and `names`, and assert that its descriptor equals the running
index. -/
def socketBlock (enabled bindFail : Bool) (name : String) (p : Prep) :
    Except Err Unit × Prep :=
  if enabled then
    let fd := (socketCreate p.st).1
    let st := enterClosing fd (socketCreate p.st).2
    if bindFail then
      (.error .bindError, { p with st })
    else if fd = p.index then
      (.ok (), { index := p.index + 1, sockets := p.sockets ++ [fd],
                 names := p.names ++ [name], st })
    else
      (.error .assertError,
       { p with sockets := p.sockets ++ [fd], names := p.names ++ [name], st })
  else (.ok (), p)

/-- The four feature blocks of `Cli._prepare_sockets`, in source order. -/
def prepBlocks (args : Args) (bf : BindFails) : List (Bool × Bool × String) :=
  [(args.weldr_api, bf.weldr, "osbuild-composer.socket"),
   (args.composer_api, bf.composerApi, "osbuild-composer-api.socket"),
   (args.local_worker_api, bf.localWorker, "osbuild-local-worker.socket"),
   (args.remote_worker_api, bf.remoteWorker, "osbuild-remote-worker.socket")]

/-- Run the feature blocks in order, stopping at the first exception. -/
def runBlocks : List (Bool × Bool × String) → Prep → Except Err Unit × Prep
  | [], p => (.ok (), p)
  | b :: bs, p =>
    match socketBlock b.1 b.2.1 b.2.2 p with
    | (.error e, p') => (.error e, p')
    | (.ok _, p') => runBlocks bs p'

/-- `Cli._prepare_sockets`: run the four blocks starting at index 3, then
write `LISTEN_FDS` and `LISTEN_FDNAMES` into the global environment and
return the socket list. -/
def prepare_sockets (args : Args) (bf : BindFails) (st : St) :
    Except Err (List Nat) × St :=
  match runBlocks (prepBlocks args bf) ⟨3, [], [], st⟩ with
  | (.error e, p) => (.error e, p.st)
  | (.ok _, p) =>
    (.ok p.sockets,
     { p.st with
        environ := envSet (envSet p.st.environ "LISTEN_FDS" (toString p.sockets.length))
                          "LISTEN_FDNAMES" (String.intercalate ":" p.names) })

/-- The socket names of the enabled features in the fixed creation order, as
the spec states them (claim-side declarative description). -/
def specNames (args : Args) : List String :=
  (if args.weldr_api then ["osbuild-composer.socket"] else []) ++
  (if args.composer_api then ["osbuild-composer-api.socket"] else []) ++
  (if args.local_worker_api then ["osbuild-local-worker.socket"] else []) ++
  (if args.remote_worker_api then ["osbuild-remote-worker.socket"] else [])

/-- `any([weldr_api, composer_api, local_worker_api, remote_worker_api])`:
the condition under which `Cli.run` spawns the composer. -/
def primaryEnabled (args : Args) : Bool :=
  args.weldr_api || args.composer_api || args.local_worker_api || args.remote_worker_api

/-- `subprocess.Popen`: unless the spawn fails, the new child gets the pid the
OS chose, inherits exactly `passFds` beyond the standard streams, and execs
with `env` — after the optional `preexec_fn` hook ran in the child (between
fork and exec) with the child's own pid.  The emitted events record the
fork, the hook, and the exec, in that order. -/
def popen (role : Role) (spawnFail : Bool) (pid : Nat) (env : Env)
    (passFds : List Nat) (preexec : Option (Nat → Env → Env)) (st : St) :
    Except Err Child × St :=
  if spawnFail then (.error .spawnError, st)
  else
    let envAtExec := match preexec with
      | some f => f pid env
      | none => env
    let child : Child := ⟨role, pid, envAtExec, passFds⟩
    let evs : List Event := match preexec with
      | some _ => [.spawned role, .preexecRan role, .execStarted role]
      | none => [.spawned role, .execStarted role]
    (.ok child, { st with trace := st.trace ++ evs, children := st.children ++ [child] })

/-- `proc.terminate()`: a graceful termination request (SIGTERM). -/
def procTerminate (c : Child) (st : St) : St :=
  { st with trace := st.trace ++ [.terminated c.role] }

/-- `proc.kill()`: a forced kill (SIGKILL). -/
def procKill (c : Child) (st : St) : St :=
  { st with trace := st.trace ++ [.killed c.role] }

/-- `proc.wait()`: reap the child and observe its exit code. -/
def procWait (exitCode : Role → Int) (c : Child) (st : St) : Int × St :=
  (exitCode c.role, { st with trace := st.trace ++ [.waited c.role] })

/-- `Cli._spawn_worker`: copy the environment, add the worker cache and state
directories, and spawn `osbuild-worker` with no passed descriptors. -/
def spawn_worker (spawnFail : Bool) (pid : Nat) (st : St) : Except Err Child × St :=
  let env := envSet (envSet st.environ "CACHE_DIRECTORY" "/var/cache/osbuild-worker")
                    "STATE_DIRECTORY" "/var/lib/osbuild-worker"
  popen .worker spawnFail pid env [] none st

/-- `Cli._spawn_composer`: mutate the caller's (global) environment with the
composer cache and state directories, then spawn `osbuild-composer` with the
activation sockets in `pass_fds` and a `preexec_fn` hook that sets
`LISTEN_PID` to the child's own pid between fork and exec. -/
def spawn_composer (spawnFail : Bool) (pid : Nat) (sockets : List Nat) (st : St) :
    Except Err Child × St :=
  let st' := { st with
    environ := envSet (envSet st.environ "CACHE_DIRECTORY" "/var/cache/osbuild-composer")
                      "STATE_DIRECTORY" "/var/lib/osbuild-composer" }
  popen .composer spawnFail pid st'.environ sockets
    (some (fun childPid env => envSet env "LISTEN_PID" (toString childPid))) st'

/-- `Cli._spawn_dnf_json`: create one more listening socket (unix path or,
with `--dnf-json-port`, a dual-stack network socket — both variants create,
register, bind and listen a single socket), register it on the exit stack,
then spawn `dnf-json` with a copied environment holding `LISTEN_FDS=1` and
`LISTEN_FD=<fd>`, passing just that descriptor. -/
def spawn_dnf_json (bindFail spawnFail : Bool) (pid : Nat) (st : St) :
    Except Err Child × St :=
  let fd := (socketCreate st).1
  let st1 := enterClosing fd (socketCreate st).2
  if bindFail then (.error .bindError, st1)
  else
    let env := envSet (envSet st1.environ "LISTEN_FDS" "1") "LISTEN_FD" (toString fd)
    popen .dnfJson spawnFail pid env [fd] none st1

/-- `if self.args.builtin_worker: proc_worker = self._spawn_worker()`. -/
def spawnWorkerStep (args : Args) (w : World) (st : St) :
    Except Err (Option Child) × St :=
  if args.builtin_worker then
    match spawn_worker w.sf.worker (w.pidOf .worker) st with
    | (.ok c, st') => (.ok (some c), st')
    | (.error e, st') => (.error e, st')
  else (.ok none, st)

/-- `if self.args.dnf_json: proc_dnf_json = self._spawn_dnf_json()`. -/
def spawnDnfStep (args : Args) (w : World) (st : St) :
    Except Err (Option Child) × St :=
  if args.dnf_json then
    match spawn_dnf_json w.bf.dnfJson w.sf.dnfJson (w.pidOf .dnfJson) st with
    | (.ok c, st') => (.ok (some c), st')
    | (.error e, st') => (.error e, st')
  else (.ok none, st)

/-- `if any([...]): proc_composer = self._spawn_composer(sockets)`. -/
def spawnComposerStep (args : Args) (w : World) (sockets : List Nat) (st : St) :
    Except Err (Option Child) × St :=
  if primaryEnabled args then
    match spawn_composer w.sf.composer (w.pidOf .composer) sockets st with
    | (.ok c, st') => (.ok (some c), st')
    | (.error e, st') => (.error e, st')
  else (.ok none, st)

/-- The helper clean-up of the normal path of `Cli.run`: terminate each
helper only if a composer exists, then reap it; finally `return res`. -/
def phaseCleanup (exitCode : Role → Int) (pw pd pc : Option Child) (res : Int)
    (st : St) : Except Err Int × Option Child × Option Child × Option Child × St :=
  let st1 := match pw with
    | some cw =>
      let stT := match pc with
        | some _ => procTerminate cw st
        | none => st
      (procWait exitCode cw stT).2
    | none => st
  let st2 := match pd with
    | some cd =>
      let stT := match pc with
        | some _ => procTerminate cd st1
        | none => st1
      (procWait exitCode cd stT).2
    | none => st1
  (.ok res, pw, pd, pc, st2)

/-- The `try:` block of `Cli.run`: spawn the enabled children in source
order, block on the composer if one was spawned (the point where a
`KeyboardInterrupt` can arrive), then clean up the helpers and return the
composer's exit code (or the initial `res = 0`). -/
def tryBody (args : Args) (w : World) (sockets : List Nat) (st : St) :
    Except Err Int × Option Child × Option Child × Option Child × St :=
  match spawnWorkerStep args w st with
  | (.error e, st') => (.error e, none, none, none, st')
  | (.ok pw, st') =>
    match spawnDnfStep args w st' with
    | (.error e, st'') => (.error e, pw, none, none, st'')
    | (.ok pd, st'') =>
      match spawnComposerStep args w sockets st'' with
      | (.error e, st3) => (.error e, pw, pd, none, st3)
      | (.ok pc, st3) =>
        match pc with
        | some cc =>
          if w.interruptAtWait then
            (.error .keyboardInterrupt, pw, pd, pc, st3)
          else
            let (res, st4) := procWait w.exitCode cc st3
            phaseCleanup w.exitCode pw pd pc res st4
        | none => phaseCleanup w.exitCode pw pd pc 0 st3

/-- The `except KeyboardInterrupt:` handler of `Cli.run`: terminate and reap
the worker, then the dnf-json helper, then terminate the composer and take
its exit code as the result; afterwards `return res`. -/
def interruptHandler (exitCode : Role → Int) (pw pd pc : Option Child) (st : St) :
    Except Err Int × St :=
  let st1 := match pw with
    | some cw => (procWait exitCode cw (procTerminate cw st)).2
    | none => st
  let st2 := match pd with
    | some cd => (procWait exitCode cd (procTerminate cd st1)).2
    | none => st1
  match pc with
  | some cc =>
    let stT := procTerminate cc st2
    let (res, st3) := procWait exitCode cc stT
    (.ok res, st3)
  | none => (.ok 0, st2)

/-- The bare `except:` handler of `Cli.run`: kill every child that exists,
without waiting, and re-raise the original exception. -/
def bareHandler (e : Err) (pw pd pc : Option Child) (st : St) :
    Except Err Int × St :=
  let st1 := match pw with
    | some cw => procKill cw st
    | none => st
  let st2 := match pd with
    | some cd => procKill cd st1
    | none => st1
  let st3 := match pc with
    | some cc => procKill cc st2
    | none => st2
  (.error e, st3)

/-- Dispatch on the outcome of the `try` body: a normal return, the
`except KeyboardInterrupt` handler, or the bare `except` handler. -/
def runDispatch (w : World) :
    Except Err Int × Option Child × Option Child × Option Child × St →
    Except Err Int × St
  | (.ok res, _, _, _, st) => (.ok res, st)
  | (.error .keyboardInterrupt, pw, pd, pc, st) => interruptHandler w.exitCode pw pd pc st
  | (.error e, pw, pd, pc, st) => bareHandler e pw pd pc st

/-- Dispatch on the outcome of socket preparation: a failure there happens
outside the `try` and propagates with no children to clean up. -/
def prepDispatch (args : Args) (w : World) :
    Except Err (List Nat) × St → Except Err Int × St
  | (.error e, st) => (.error e, st)
  | (.ok sockets, st) => runDispatch w (tryBody args w sockets st)

/-- `Cli.run`: prepare the sockets, run the `try` body, and dispatch to the
matching `except` handler. -/
def run (args : Args) (w : World) (st : St) : Except Err Int × St :=
  prepDispatch args w (prepare_sockets args w.bf st)

/-- `Cli.__exit__` / `ExitStack.close`: close every registered socket, most
recently registered first. -/
def exitStackClose (st : St) : St :=
  { st with
      openFds := st.openFds.filter (fun fd => !st.stack.contains fd),
      stack := [],
      trace := st.trace ++ st.stack.map Event.sockClosed }

/-- The whole program: `with Cli(argv) as cli: sys.exit(cli.run())` — the
`with` statement guarantees `__exit__` runs on every path, normal or
exceptional. -/
def mainRun (args : Args) (w : World) (env0 : Env) : Except Err Int × St :=
  ((run args w (initSt env0)).1, exitStackClose (run args w (initSt env0)).2)

/-- First child with the given role, as recorded in the run state. -/
def childOf (r : Role) : List Child → Option Child
  | [] => none
  | c :: cs => if c.role = r then some c else childOf r cs

/-- The value of environment variable `k` in the environment the child with
role `r` execs with, when such a child exists. -/
def childEnvVal (r : Role) (k : String) (cs : List Child) : Option String :=
  match childOf r cs with
  | some c => envGet c.env k
  | none => none

/-- No bind or listen call fails. -/
def noBindFails (bf : BindFails) : Prop :=
  bf.weldr = false ∧ bf.composerApi = false ∧ bf.localWorker = false ∧
  bf.remoteWorker = false ∧ bf.dnfJson = false

/-- No `Popen` call fails. -/
def noSpawnFails (sf : SpawnFails) : Prop :=
  sf.worker = false ∧ sf.dnfJson = false ∧ sf.composer = false

/-- The propagated result is an internal failure: an error other than the
`KeyboardInterrupt` handled gracefully. -/
def isInternalErr : Except Err Int → Bool
  | .error .bindError => true
  | .error .spawnError => true
  | .error .assertError => true
  | _ => false

/-- The socket preparation aborted with a failed assertion. -/
def isAssertErr : Except Err (List Nat) → Bool
  | .error .assertError => true
  | _ => false

/-!
Closed forms for the run, proved once and reused by the claims.
-/

/-- The trace of a successful socket preparation: one creation event per
enabled feature, descriptors 3, 4, … -/
def prepTrace (args : Args) : List Event :=
  (List.range' 3 (specNames args).length).map Event.sockCreated

/-- The open descriptors after a successful preparation (most recent first,
on top of the standard streams). -/
def fdsAfter (args : Args) : List Nat :=
  (List.range' 3 (specNames args).length).reverse ++ [0, 1, 2]

/-- The `ExitStack` contents after a successful preparation. -/
def stackAfter (args : Args) : List Nat :=
  (List.range' 3 (specNames args).length).reverse

/-- The global environment after a successful preparation. -/
def prepEnv (args : Args) (env0 : Env) : Env :=
  envSet (envSet env0 "LISTEN_FDS" (toString (specNames args).length))
    "LISTEN_FDNAMES" (String.intercalate ":" (specNames args))

/-- The supervisor state after a successful socket preparation. -/
def prepSt (args : Args) (env0 : Env) : St :=
  { openFds := fdsAfter args, stack := stackAfter args,
    environ := prepEnv args env0, trace := prepTrace args, children := [] }

/-- The worker child as spawned by `_spawn_worker` from environment `env`. -/
def workerChild (w : World) (env : Env) : Child :=
  ⟨.worker, w.pidOf .worker,
   envSet (envSet env "CACHE_DIRECTORY" "/var/cache/osbuild-worker")
     "STATE_DIRECTORY" "/var/lib/osbuild-worker", []⟩

/-- The dnf-json child as spawned by `_spawn_dnf_json` from environment
`env`, with its own socket `fd`. -/
def dnfChild (w : World) (env : Env) (fd : Nat) : Child :=
  ⟨.dnfJson, w.pidOf .dnfJson,
   envSet (envSet env "LISTEN_FDS" "1") "LISTEN_FD" (toString fd), [fd]⟩

/-- The composer child as spawned by `_spawn_composer` from global
environment `env` with the activation sockets. -/
def composerChild (w : World) (env : Env) (sockets : List Nat) : Child :=
  ⟨.composer, w.pidOf .composer,
   envSet (envSet (envSet env "CACHE_DIRECTORY" "/var/cache/osbuild-composer")
     "STATE_DIRECTORY" "/var/lib/osbuild-composer")
     "LISTEN_PID" (toString (w.pidOf .composer)), sockets⟩

/-- The result of the `try` body with no failures: interrupt pending exit,
the composer's exit code, or the initial zero. -/
def tbRes (pe intr : Bool) (ec : Role → Int) : Except Err Int :=
  if pe then (if intr then .error .keyboardInterrupt else .ok (ec .composer))
  else .ok 0

/-- `proc_worker` after the `try` body with no failures. -/
def tbW (args : Args) (w : World) (st : St) : Option Child :=
  if args.builtin_worker then some (workerChild w st.environ) else none

/-- `proc_dnf_json` after the `try` body with no failures. -/
def tbD (args : Args) (w : World) (st : St) : Option Child :=
  if args.dnf_json then some (dnfChild w st.environ (lowestFree st.openFds)) else none

/-- `proc_composer` after the `try` body with no failures. -/
def tbC (args : Args) (w : World) (sockets : List Nat) (st : St) : Option Child :=
  if primaryEnabled args then some (composerChild w st.environ sockets) else none

/-- The events the `try` body emits with no failures. -/
def tbTrace (bw dj pe intr : Bool) (fdD : Nat) : List Event :=
  (if bw then [.spawned .worker, .execStarted .worker] else []) ++
  (if dj then [.sockCreated fdD, .spawned .dnfJson, .execStarted .dnfJson] else []) ++
  (if pe then [.spawned .composer, .preexecRan .composer, .execStarted .composer] else []) ++
  (if pe then
    (if intr then []
     else [.waited .composer] ++
       (if bw then [.terminated .worker, .waited .worker] else []) ++
       (if dj then [.terminated .dnfJson, .waited .dnfJson] else []))
   else
    (if bw then [.waited .worker] else []) ++
    (if dj then [.waited .dnfJson] else []))

/-- The supervision events of a whole failure-free run: the `try` body's
events followed, on the interrupt path, by the interrupt handler's. -/
def supTrace (bw dj pe intr : Bool) (fdD : Nat) : List Event :=
  tbTrace bw dj pe intr fdD ++
  (if pe && intr then
     (if bw then [.terminated .worker, .waited .worker] else []) ++
     (if dj then [.terminated .dnfJson, .waited .dnfJson] else []) ++
     [.terminated .composer, .waited .composer]
   else [])

/-- An internal failure occurring inside the `try` block after all earlier
operations succeeded: either the dnf-json socket bind fails, or the dnf-json
spawn fails, or the composer spawn fails. -/
def failScenario (args : Args) (w : World) : Prop :=
  (args.dnf_json = true ∧ w.sf.worker = false ∧ w.bf.dnfJson = true) ∨
  (args.dnf_json = true ∧ w.sf.worker = false ∧ w.bf.dnfJson = false ∧
    w.sf.dnfJson = true) ∨
  (primaryEnabled args = true ∧ w.sf.worker = false ∧
    (args.dnf_json = true → w.bf.dnfJson = false ∧ w.sf.dnfJson = false) ∧
    w.sf.composer = true)

/-- The resource invariant maintained throughout a run: every socket-creation
event corresponds to exactly one registration on the `ExitStack`, no socket
has been closed yet, the stack has no duplicates, and every registered
descriptor is still open. -/
def Inv (st : St) : Prop :=
  (∀ fd, countEv (isSockCreated fd) st.trace = st.stack.count fd) ∧
  (∀ fd, countEv (isSockClosed fd) st.trace = 0) ∧
  st.stack.Nodup ∧
  (∀ fd, fd ∈ st.stack → fd ∈ st.openFds)

/-!
General lemmas, the closed forms of the run, and the resource invariant.
-/

theorem countEv_append (p : Event → Bool) (l1 l2 : List Event) :
    countEv p (l1 ++ l2) = countEv p l1 + countEv p l2 := by
  induction l1 with
  | nil => simp [countEv]
  | cons e es ih =>
    rw [List.cons_append, countEv, countEv, ih]
    omega

theorem countEv_map_sockCreated (p : Event → Bool) (l : List Nat)
    (h : ∀ fd, p (.sockCreated fd) = false) :
    countEv p (l.map Event.sockCreated) = 0 := by
  induction l with
  | nil => rfl
  | cons a t ih => simp [countEv, h a, ih]

theorem countEv_map_sockClosed (p : Event → Bool) (l : List Nat)
    (h : ∀ fd, p (.sockClosed fd) = false) :
    countEv p (l.map Event.sockClosed) = 0 := by
  induction l with
  | nil => rfl
  | cons a t ih => simp [countEv, h a, ih]

theorem countEv_prepTrace (p : Event → Bool) (args : Args)
    (h : ∀ fd, p (.sockCreated fd) = false) :
    countEv p (prepTrace args) = 0 :=
  countEv_map_sockCreated p _ h

theorem firstIdx_of_countEv_zero (p : Event → Bool) (l : List Event)
    (h : countEv p l = 0) : firstIdx p l = none := by
  induction l with
  | nil => rfl
  | cons e es ih =>
    rw [countEv] at h
    by_cases hc : p e
    · simp [hc] at h
    · simp only [Bool.not_eq_true] at hc
      simp only [hc, Bool.false_eq_true, if_false, Nat.zero_add] at h
      simp [firstIdx, hc, ih h]

theorem firstIdx_append_left (p : Event → Bool) (l1 l2 : List Event)
    (h : countEv p l1 = 0) :
    firstIdx p (l1 ++ l2) = (firstIdx p l2).map (· + l1.length) := by
  induction l1 with
  | nil =>
    simp only [List.nil_append, List.length_nil]
    cases firstIdx p l2 <;> simp
  | cons e es ih =>
    rw [countEv] at h
    by_cases hc : p e
    · simp [hc] at h
    · simp only [Bool.not_eq_true] at hc
      simp only [hc, Bool.false_eq_true, if_false, Nat.zero_add] at h
      rw [List.cons_append]
      simp only [firstIdx, hc, Bool.false_eq_true, if_false, ih h]
      cases firstIdx p l2
      · simp
      · simp
        omega

theorem firstIdx_append_right (p : Event → Bool) (l1 l2 : List Event)
    (h : countEv p l2 = 0) :
    firstIdx p (l1 ++ l2) = firstIdx p l1 := by
  induction l1 with
  | nil => simpa using firstIdx_of_countEv_zero p l2 h
  | cons e es ih =>
    by_cases hc : p e
    · simp [firstIdx, hc]
    · simp only [Bool.not_eq_true] at hc
      simp [firstIdx, hc, ih]

theorem beforeB_append_left (p q : Event → Bool) (l0 l : List Event)
    (hp : countEv p l0 = 0) (hq : countEv q l0 = 0) :
    beforeB p q (l0 ++ l) = beforeB p q l := by
  rw [beforeB, beforeB, firstIdx_append_left p l0 l hp, firstIdx_append_left q l0 l hq]
  cases firstIdx p l <;> cases firstIdx q l <;> simp [Nat.add_lt_add_iff_right]

theorem beforeB_append_right (p q : Event → Bool) (l l2 : List Event)
    (hp : countEv p l2 = 0) (hq : countEv q l2 = 0) :
    beforeB p q (l ++ l2) = beforeB p q l := by
  rw [beforeB, beforeB, firstIdx_append_right p l l2 hp, firstIdx_append_right q l l2 hq]

theorem countEv_map_closed_count (fd : Nat) (l : List Nat) :
    countEv (isSockClosed fd) (l.map Event.sockClosed) = l.count fd := by
  induction l with
  | nil => rfl
  | cons a t ih =>
    rw [List.map_cons, countEv, List.count_cons, ih]
    by_cases h : a = fd
    · simp [isSockClosed, h]
      omega
    · simp [isSockClosed, h, Ne.symm h]

theorem countEv_pos_of_mem (p : Event → Bool) (e : Event) (l : List Event)
    (hmem : e ∈ l) (hp : p e = true) : 1 ≤ countEv p l := by
  induction l with
  | nil => cases hmem
  | cons a t ih =>
    rcases List.mem_cons.mp hmem with h1 | h1
    · subst h1; simp [countEv, hp]
    · have := ih h1
      rw [countEv]
      omega

theorem length_filter_ge (l : List Nat) (s : Nat) :
    (l.filter (fun x => decide (s ≤ x))).length
      = l.count s + (l.filter (fun x => decide (s + 1 ≤ x))).length := by
  induction l with
  | nil => rfl
  | cons a t ih =>
    by_cases h2 : s ≤ a
    · by_cases h3 : s + 1 ≤ a
      · have h1 : a ≠ s := by omega
        simp [List.filter_cons, List.count_cons, h1, h2, h3]
        omega
      · have h1 : a = s := by omega
        subst h1
        simp [List.filter_cons, List.count_cons, h2, h3]
        omega
    · have h3 : ¬ (s + 1 ≤ a) := by omega
      have h1 : a ≠ s := by omega
      simp [List.filter_cons, List.count_cons, h1, h2, h3]
      omega

theorem lowestFreeGo_not_mem (used : List Nat) :
    ∀ fuel start, (used.filter (fun x => decide (start ≤ x))).length < fuel →
      lowestFreeGo used fuel start ∉ used := by
  intro fuel
  induction fuel with
  | zero => intro start h; omega
  | succ n ih =>
    intro start h
    rw [lowestFreeGo]
    by_cases hc : used.contains start
    · rw [if_pos hc]
      apply ih
      have hmem : start ∈ used := by simpa using hc
      have hcount : 0 < used.count start := List.count_pos_iff.mpr hmem
      have hsplit := length_filter_ge used start
      omega
    · rw [if_neg hc]
      intro hmem
      exact hc (by simpa using hmem)

theorem lowestFree_not_mem (used : List Nat) : lowestFree used ∉ used := by
  apply lowestFreeGo_not_mem
  have := List.length_filter_le (fun x => decide (0 ≤ x)) used
  omega

/-- Socket preparation succeeds and yields exactly this state when none of
the four activation binds fails. -/
theorem prepare_sockets_ok (args : Args) (bf : BindFails) (env0 : Env)
    (h : bf.weldr = false ∧ bf.composerApi = false ∧ bf.localWorker = false ∧
         bf.remoteWorker = false) :
    prepare_sockets args bf (initSt env0)
      = (.ok (List.range' 3 (specNames args).length), prepSt args env0) := by
  obtain ⟨b1, b2, b3, b4, b5⟩ := bf
  obtain ⟨h1, h2, h3, h4⟩ := h
  subst h1 h2 h3 h4
  obtain ⟨bw, ca, cp, lw, rw, wa, dj, dp⟩ := args
  cases ca <;> cases lw <;> cases rw <;> cases wa <;> rfl

/-- The `try` body on a failure-free world: closed form of its result, the
three child handles, and the state. -/
theorem tryBody_noFail (args : Args) (w : World) (sockets : List Nat) (st : St)
    (hs : noSpawnFails w.sf) (hd : w.bf.dnfJson = false) :
    tryBody args w sockets st =
      (tbRes (primaryEnabled args) w.interruptAtWait w.exitCode,
       tbW args w st, tbD args w st, tbC args w sockets st,
       { openFds := if args.dnf_json then lowestFree st.openFds :: st.openFds else st.openFds,
         stack := if args.dnf_json then lowestFree st.openFds :: st.stack else st.stack,
         environ := if primaryEnabled args then
             envSet (envSet st.environ "CACHE_DIRECTORY" "/var/cache/osbuild-composer")
               "STATE_DIRECTORY" "/var/lib/osbuild-composer"
           else st.environ,
         trace := st.trace ++
           tbTrace args.builtin_worker args.dnf_json (primaryEnabled args)
             w.interruptAtWait (lowestFree st.openFds),
         children := st.children ++
           ((if args.builtin_worker then [workerChild w st.environ] else []) ++
            (if args.dnf_json then [dnfChild w st.environ (lowestFree st.openFds)] else []) ++
            (if primaryEnabled args then [composerChild w st.environ sockets] else [])) }) := by
  obtain ⟨bfv, ⟨s1, s2, s3⟩, pid, ec, intr⟩ := w
  obtain ⟨g1, g2, g3⟩ := hs
  subst g1 g2 g3
  simp only at hd
  cases hbw : args.builtin_worker <;> cases hdj : args.dnf_json <;>
  cases hpe : primaryEnabled args <;> cases hin : intr <;>
    simp [tryBody, spawnWorkerStep, spawnDnfStep, spawnComposerStep, spawn_worker,
          spawn_dnf_json, spawn_composer, popen, phaseCleanup, procWait, procTerminate,
          socketCreate, enterClosing, hbw, hdj, hpe, hd,
          tbRes, tbW, tbD, tbC, tbTrace, workerChild, dnfChild, composerChild,
          List.append_assoc]

/-- A failure-free run in closed form: the result, the trace, and the
children. -/
theorem mainRun_noFail (args : Args) (w : World) (env0 : Env)
    (hb : noBindFails w.bf) (hs : noSpawnFails w.sf) :
    (mainRun args w env0).1
      = (if primaryEnabled args then Except.ok (w.exitCode .composer) else Except.ok 0) ∧
    (mainRun args w env0).2.trace
      = prepTrace args ++
        supTrace args.builtin_worker args.dnf_json (primaryEnabled args)
          w.interruptAtWait (lowestFree (fdsAfter args)) ++
        (if args.dnf_json then lowestFree (fdsAfter args) :: stackAfter args
         else stackAfter args).map Event.sockClosed ∧
    (mainRun args w env0).2.children
      = (if args.builtin_worker then [workerChild w (prepEnv args env0)] else []) ++
        (if args.dnf_json then [dnfChild w (prepEnv args env0) (lowestFree (fdsAfter args))] else []) ++
        (if primaryEnabled args then
          [composerChild w (prepEnv args env0) (List.range' 3 (specNames args).length)]
         else []) := by
  obtain ⟨⟨b1, b2, b3, b4, b5⟩, ⟨s1, s2, s3⟩, pid, ec, intr⟩ := w
  obtain ⟨h1, h2, h3, h4, h5⟩ := hb
  subst h1 h2 h3 h4 h5
  obtain ⟨g1, g2, g3⟩ := hs
  subst g1 g2 g3
  have hprep := prepare_sockets_ok args ⟨false, false, false, false, false⟩ env0
    ⟨rfl, rfl, rfl, rfl⟩
  have htb := tryBody_noFail args
    ⟨⟨false, false, false, false, false⟩, ⟨false, false, false⟩, pid, ec, intr⟩
    (List.range' 3 (specNames args).length) (prepSt args env0) ⟨rfl, rfl, rfl⟩ rfl
  refine ⟨?_, ?_, ?_⟩ <;>
    cases hbw : args.builtin_worker <;> cases hdj : args.dnf_json <;>
    cases hpe : primaryEnabled args <;> cases hin : intr <;>
      (simp only [mainRun, run, prepDispatch, hprep]
       rw [hin] at htb
       rw [htb]
       simp [runDispatch, hbw, hdj, hpe, hin, tbRes, tbW, tbD, tbC, supTrace,
             prepSt, interruptHandler, bareHandler, exitStackClose,
             procTerminate, procWait, workerChild, dnfChild, composerChild,
             List.append_assoc])

theorem inv_addTrace (st : St) (evs : List Event)
    (hc : ∀ fd, countEv (isSockCreated fd) evs = 0)
    (hk : ∀ fd, countEv (isSockClosed fd) evs = 0)
    (h : Inv st) :
    Inv { st with trace := st.trace ++ evs } := by
  obtain ⟨hcnt, hcls, hnd, hsub⟩ := h
  refine ⟨fun fd => ?_, fun fd => ?_, hnd, hsub⟩
  · rw [countEv_append, hc fd, hcnt fd]
    simp
  · rw [countEv_append, hk fd, hcls fd]

theorem inv_addTraceChildren (st : St) (evs : List Event) (cs : List Child)
    (hc : ∀ fd, countEv (isSockCreated fd) evs = 0)
    (hk : ∀ fd, countEv (isSockClosed fd) evs = 0)
    (h : Inv st) :
    Inv { st with trace := st.trace ++ evs, children := st.children ++ cs } := by
  obtain ⟨hcnt, hcls, hnd, hsub⟩ := h
  refine ⟨fun fd => ?_, fun fd => ?_, hnd, hsub⟩
  · rw [countEv_append, hc fd, hcnt fd]
    simp
  · rw [countEv_append, hk fd, hcls fd]

theorem inv_createRegister (st : St) (h : Inv st) :
    Inv (enterClosing (socketCreate st).1 (socketCreate st).2) := by
  obtain ⟨hcnt, hcls, hnd, hsub⟩ := h
  have hnm : lowestFree st.openFds ∉ st.openFds := lowestFree_not_mem _
  refine ⟨fun fd => ?_, fun fd => ?_, ?_, fun fd hfd => ?_⟩
  · show countEv (isSockCreated fd) (st.trace ++ [.sockCreated (lowestFree st.openFds)])
      = (lowestFree st.openFds :: st.stack).count fd
    rw [countEv_append, hcnt fd, List.count_cons]
    by_cases hfd : lowestFree st.openFds = fd
    · simp [countEv, isSockCreated, hfd]
    · simp [countEv, isSockCreated, hfd]
  · show countEv (isSockClosed fd) (st.trace ++ [.sockCreated (lowestFree st.openFds)]) = 0
    rw [countEv_append, hcls fd]
    rfl
  · show (lowestFree st.openFds :: st.stack).Nodup
    refine List.nodup_cons.mpr ⟨fun hmem => hnm (hsub _ hmem), hnd⟩
  · show fd ∈ lowestFree st.openFds :: st.openFds
    rcases List.mem_cons.mp hfd with h1 | h1
    · exact h1 ▸ List.mem_cons_self _ _
    · exact List.mem_cons_of_mem _ (hsub _ h1)

theorem inv_socketBlock (en bfail : Bool) (nm : String) (p : Prep) (h : Inv p.st) :
    Inv ((socketBlock en bfail nm p).2).st := by
  have hcr := inv_createRegister p.st h
  simp only [socketBlock]
  split
  · split
    · exact hcr
    · split
      · exact hcr
      · exact hcr
  · exact h

theorem inv_runBlocks (bs : List (Bool × Bool × String)) (p : Prep) (h : Inv p.st) :
    Inv ((runBlocks bs p).2).st := by
  induction bs generalizing p with
  | nil => simpa using h
  | cons b bs ih =>
    rw [runBlocks]
    rcases hsb : socketBlock b.1 b.2.1 b.2.2 p with ⟨r, p'⟩
    have hp' : Inv p'.st := by
      have h2 := inv_socketBlock b.1 b.2.1 b.2.2 p h
      rwa [hsb] at h2
    cases r
    · exact hp'
    · exact ih p' hp'

theorem inv_prepare (args : Args) (bf : BindFails) (st : St) (h : Inv st) :
    Inv (prepare_sockets args bf st).2 := by
  rw [prepare_sockets]
  rcases hrb : runBlocks (prepBlocks args bf) ⟨3, [], [], st⟩ with ⟨r, p⟩
  have hp : Inv p.st := by
    have h2 := inv_runBlocks (prepBlocks args bf) ⟨3, [], [], st⟩ h
    rwa [hrb] at h2
  cases r
  · exact hp
  · exact ⟨hp.1, hp.2.1, hp.2.2.1, hp.2.2.2⟩

theorem inv_popen (role : Role) (spawnFail : Bool) (pid : Nat) (env : Env)
    (passFds : List Nat) (preexec : Option (Nat → Env → Env)) (st : St)
    (h : Inv st) : Inv (popen role spawnFail pid env passFds preexec st).2 := by
  cases spawnFail
  · cases preexec
    · exact inv_addTraceChildren st _ _ (fun fd => rfl) (fun fd => rfl) h
    · exact inv_addTraceChildren st _ _ (fun fd => rfl) (fun fd => rfl) h
  · exact h

theorem inv_spawn_worker (f : Bool) (pid : Nat) (st : St) (h : Inv st) :
    Inv (spawn_worker f pid st).2 :=
  inv_popen _ _ _ _ _ _ _ h

theorem inv_spawn_composer (f : Bool) (pid : Nat) (sockets : List Nat) (st : St)
    (h : Inv st) : Inv (spawn_composer f pid sockets st).2 :=
  inv_popen _ _ _ _ _ _ _ ⟨h.1, h.2.1, h.2.2.1, h.2.2.2⟩

theorem inv_spawn_dnf (bfail sfail : Bool) (pid : Nat) (st : St) (h : Inv st) :
    Inv (spawn_dnf_json bfail sfail pid st).2 := by
  have h1 := inv_createRegister st h
  cases bfail
  · exact inv_popen .dnfJson sfail pid _ _ none _ h1
  · exact h1

theorem inv_spawnWorkerStep (args : Args) (w : World) (st : St) (h : Inv st) :
    Inv (spawnWorkerStep args w st).2 := by
  rw [spawnWorkerStep]
  split
  · rcases hsw : spawn_worker w.sf.worker (w.pidOf .worker) st with ⟨r, st'⟩
    have h2 : Inv st' := by
      have h3 := inv_spawn_worker w.sf.worker (w.pidOf .worker) st h
      rwa [hsw] at h3
    cases r
    · exact h2
    · exact h2
  · exact h

theorem inv_spawnDnfStep (args : Args) (w : World) (st : St) (h : Inv st) :
    Inv (spawnDnfStep args w st).2 := by
  rw [spawnDnfStep]
  split
  · rcases hsd : spawn_dnf_json w.bf.dnfJson w.sf.dnfJson (w.pidOf .dnfJson) st with ⟨r, st'⟩
    have h2 : Inv st' := by
      have h3 := inv_spawn_dnf w.bf.dnfJson w.sf.dnfJson (w.pidOf .dnfJson) st h
      rwa [hsd] at h3
    cases r
    · exact h2
    · exact h2
  · exact h

theorem inv_spawnComposerStep (args : Args) (w : World) (sockets : List Nat)
    (st : St) (h : Inv st) : Inv (spawnComposerStep args w sockets st).2 := by
  rw [spawnComposerStep]
  split
  · rcases hsc : spawn_composer w.sf.composer (w.pidOf .composer) sockets st with ⟨r, st'⟩
    have h2 : Inv st' := by
      have h3 := inv_spawn_composer w.sf.composer (w.pidOf .composer) sockets st h
      rwa [hsc] at h3
    cases r
    · exact h2
    · exact h2
  · exact h

theorem inv_procTerminate (c : Child) (st : St) (h : Inv st) :
    Inv (procTerminate c st) :=
  inv_addTrace st _ (fun fd => rfl) (fun fd => rfl) h

theorem inv_procKill (c : Child) (st : St) (h : Inv st) :
    Inv (procKill c st) :=
  inv_addTrace st _ (fun fd => rfl) (fun fd => rfl) h

theorem inv_procWait (ec : Role → Int) (c : Child) (st : St) (h : Inv st) :
    Inv (procWait ec c st).2 :=
  inv_addTrace st _ (fun fd => rfl) (fun fd => rfl) h

theorem inv_phaseCleanup (ec : Role → Int) (pw pd pc : Option Child) (res : Int)
    (st : St) (h : Inv st) :
    Inv (phaseCleanup ec pw pd pc res st).2.2.2.2 := by
  rcases pw with _ | cw <;> rcases pd with _ | cd <;> rcases pc with _ | cc
  · exact h
  · exact h
  · exact inv_procWait ec cd st h
  · exact inv_procWait ec cd _ (inv_procTerminate cd st h)
  · exact inv_procWait ec cw st h
  · exact inv_procWait ec cw _ (inv_procTerminate cw st h)
  · exact inv_procWait ec cd _ (inv_procWait ec cw st h)
  · exact inv_procWait ec cd _ (inv_procTerminate cd _ (inv_procWait ec cw _ (inv_procTerminate cw st h)))

theorem inv_tryBody (args : Args) (w : World) (sockets : List Nat) (st : St)
    (h : Inv st) : Inv (tryBody args w sockets st).2.2.2.2 := by
  rw [tryBody]
  split
  · rename_i e st1 heq
    have h2 := inv_spawnWorkerStep args w st h
    rw [heq] at h2
    exact h2
  · rename_i pw st1 heq
    have hi1 : Inv st1 := by
      have h2 := inv_spawnWorkerStep args w st h
      rw [heq] at h2
      exact h2
    split
    · rename_i e st2 heq2
      have h3 := inv_spawnDnfStep args w st1 hi1
      rw [heq2] at h3
      exact h3
    · rename_i pd st2 heq2
      have hi2 : Inv st2 := by
        have h3 := inv_spawnDnfStep args w st1 hi1
        rw [heq2] at h3
        exact h3
      split
      · rename_i e st3 heq3
        have h4 := inv_spawnComposerStep args w sockets st2 hi2
        rw [heq3] at h4
        exact h4
      · rename_i pc st3 heq3
        have hi3 : Inv st3 := by
          have h4 := inv_spawnComposerStep args w sockets st2 hi2
          rw [heq3] at h4
          exact h4
        cases pc with
        | some cc =>
          cases hin : w.interruptAtWait
          · exact inv_phaseCleanup w.exitCode pw pd (some cc) _ _
              (inv_procWait w.exitCode cc st3 hi3)
          · exact hi3
        | none => exact inv_phaseCleanup w.exitCode pw pd none 0 st3 hi3

theorem inv_interruptHandler (ec : Role → Int) (pw pd pc : Option Child)
    (st : St) (h : Inv st) : Inv (interruptHandler ec pw pd pc st).2 := by
  rcases pw with _ | cw <;> rcases pd with _ | cd <;> rcases pc with _ | cc
  · exact h
  · exact inv_procWait ec cc _ (inv_procTerminate cc st h)
  · exact inv_procWait ec cd _ (inv_procTerminate cd st h)
  · exact inv_procWait ec cc _ (inv_procTerminate cc _ (inv_procWait ec cd _ (inv_procTerminate cd st h)))
  · exact inv_procWait ec cw _ (inv_procTerminate cw st h)
  · exact inv_procWait ec cc _ (inv_procTerminate cc _ (inv_procWait ec cw _ (inv_procTerminate cw st h)))
  · exact inv_procWait ec cd _ (inv_procTerminate cd _ (inv_procWait ec cw _ (inv_procTerminate cw st h)))
  · exact inv_procWait ec cc _ (inv_procTerminate cc _ (inv_procWait ec cd _ (inv_procTerminate cd _ (inv_procWait ec cw _ (inv_procTerminate cw st h)))))

theorem inv_bareHandler (e : Err) (pw pd pc : Option Child) (st : St)
    (h : Inv st) : Inv (bareHandler e pw pd pc st).2 := by
  rcases pw with _ | cw <;> rcases pd with _ | cd <;> rcases pc with _ | cc
  · exact h
  · exact inv_procKill cc st h
  · exact inv_procKill cd st h
  · exact inv_procKill cc _ (inv_procKill cd st h)
  · exact inv_procKill cw st h
  · exact inv_procKill cc _ (inv_procKill cw st h)
  · exact inv_procKill cd _ (inv_procKill cw st h)
  · exact inv_procKill cc _ (inv_procKill cd _ (inv_procKill cw st h))

theorem inv_runDispatch (w : World)
    (out : Except Err Int × Option Child × Option Child × Option Child × St)
    (h : Inv out.2.2.2.2) : Inv (runDispatch w out).2 := by
  rcases out with ⟨r, pw, pd, pc, st⟩
  cases r with
  | ok res => exact h
  | error e =>
    cases e
    · exact inv_bareHandler _ _ _ _ _ h
    · exact inv_bareHandler _ _ _ _ _ h
    · exact inv_bareHandler _ _ _ _ _ h
    · exact inv_interruptHandler _ _ _ _ _ h

theorem inv_run (args : Args) (w : World) (st : St) (h : Inv st) :
    Inv (run args w st).2 := by
  rw [run]
  rcases hp : prepare_sockets args w.bf st with ⟨r, st'⟩
  have h1 : Inv st' := by
    have h2 := inv_prepare args w.bf st h
    rwa [hp] at h2
  cases r with
  | error e => exact h1
  | ok sockets => exact inv_runDispatch w _ (inv_tryBody args w sockets st' h1)

/-!
The claims.
-/

/-- C1: for every subset of enabled feature toggles, `LISTEN_FDNAMES` written
for the primary server is exactly the colon-joined logical names of the
enabled sockets in the fixed creation order (weldr, composer-api,
local-worker, remote-worker), and `LISTEN_FDS` equals the number of enabled
sockets. -/
theorem claim_C1 (args : Args) (bf : BindFails) (env0 : Env) (h : noBindFails bf) :
    envGet (prepare_sockets args bf (initSt env0)).2.environ "LISTEN_FDNAMES"
      = some (String.intercalate ":" (specNames args)) ∧
    envGet (prepare_sockets args bf (initSt env0)).2.environ "LISTEN_FDS"
      = some (toString (specNames args).length) := by
  obtain ⟨b1, b2, b3, b4, b5⟩ := bf
  obtain ⟨h1, h2, h3, h4, h5⟩ := h
  subst h1 h2 h3 h4 h5
  obtain ⟨bw, ca, cp, lw, rw, wa, dj, dp⟩ := args
  cases ca <;> cases lw <;> cases rw <;> cases wa <;> exact ⟨rfl, rfl⟩

/-- C1 witness: all four features enabled, no bind failures. -/
theorem claim_C1_witness :
    noBindFails ⟨false, false, false, false, false⟩ ∧
    (envGet (prepare_sockets ⟨false, true, 443, true, true, true, false, 0⟩
        ⟨false, false, false, false, false⟩ (initSt [])).2.environ "LISTEN_FDNAMES"
      = some (String.intercalate ":" (specNames ⟨false, true, 443, true, true, true, false, 0⟩)) ∧
     envGet (prepare_sockets ⟨false, true, 443, true, true, true, false, 0⟩
        ⟨false, false, false, false, false⟩ (initSt [])).2.environ "LISTEN_FDS"
      = some (toString (specNames ⟨false, true, 443, true, true, true, false, 0⟩).length)) :=
  ⟨⟨rfl, rfl, rfl, rfl, rfl⟩, claim_C1 ⟨false, true, 443, true, true, true, false, 0⟩
      ⟨false, false, false, false, false⟩ [] ⟨rfl, rfl, rfl, rfl, rfl⟩⟩

/-- C2: the activation sockets' descriptors form the contiguous range
starting at 3, with no gaps for disabled roles, for every subset of enabled
features; and the `assert(sock.fileno() == index)` checks never fail during
socket preparation, whatever the world does. -/
theorem claim_C2 (args : Args) (env0 : Env) :
    (∀ bf : BindFails, isAssertErr (prepare_sockets args bf (initSt env0)).1 = false) ∧
    (∀ bf : BindFails, noBindFails bf →
      (prepare_sockets args bf (initSt env0)).1
        = .ok (List.range' 3 (specNames args).length)) := by
  obtain ⟨bw, ca, cp, lw, rw, wa, dj, dp⟩ := args
  constructor
  · intro bf
    obtain ⟨b1, b2, b3, b4, b5⟩ := bf
    cases ca <;> cases lw <;> cases rw <;> cases wa <;>
      cases b1 <;> cases b2 <;> cases b3 <;> cases b4 <;> rfl
  · intro bf h
    obtain ⟨b1, b2, b3, b4, b5⟩ := bf
    obtain ⟨h1, h2, h3, h4, h5⟩ := h
    subst h1 h2 h3 h4 h5
    cases ca <;> cases lw <;> cases rw <;> cases wa <;> rfl

/-- C2 witness: weldr and local-worker enabled give descriptors 3 and 4. -/
theorem claim_C2_witness :
    noBindFails ⟨false, false, false, false, false⟩ ∧
    (prepare_sockets ⟨false, false, 443, true, false, true, false, 0⟩
        ⟨false, false, false, false, false⟩ (initSt [])).1
      = .ok (List.range' 3 (specNames ⟨false, false, 443, true, false, true, false, 0⟩).length) :=
  ⟨⟨rfl, rfl, rfl, rfl, rfl⟩, (claim_C2 ⟨false, false, 443, true, false, true, false, 0⟩ []).2
      ⟨false, false, false, false, false⟩ ⟨rfl, rfl, rfl, rfl, rfl⟩⟩

/-- C3: when the primary server is launched, `LISTEN_PID` in the environment
the launched program sees equals that child's own pid, and it is injected in
a two-phase launch: the trace shows the fork, then the preexec hook run (the
injection), then the start of the target executable, in that order. -/
theorem claim_C3 (pid : Nat) (sockets : List Nat) (st : St) :
    ∃ c : Child,
      (spawn_composer false pid sockets st).1 = .ok c ∧
      c.pid = pid ∧
      envGet c.env "LISTEN_PID" = some (toString pid) ∧
      (spawn_composer false pid sockets st).2.trace
        = st.trace ++ [.spawned .composer, .preexecRan .composer, .execStarted .composer] :=
  ⟨_, rfl, rfl, rfl, rfl⟩

/-- C4 counterexample: with the builtin worker and the weldr API enabled and a
`KeyboardInterrupt` delivered at the blocking wait, the worker helper receives
its termination request strictly before the primary server does — refuting
the claim that helpers are terminated after the primary, never before, on
every exit path. -/
theorem claim_C4_counterexample :
    beforeB (isTerminated .worker) (isTerminated .composer)
      (mainRun ⟨true, false, 443, false, false, true, false, 0⟩
        ⟨⟨false, false, false, false, false⟩, ⟨false, false, false⟩,
         fun _ => 101, fun _ => 0, true⟩ []).2.trace = true := rfl

/-- C4 (amended): helper children are spawned before the primary server on
every path; on the normal-exit path they are terminated only after the
primary server has exited; but on the interrupt path each helper receives its
termination request before the primary server does. -/
theorem claim_C4_amended (args : Args) (w : World) (env0 : Env)
    (hb : noBindFails w.bf) (hs : noSpawnFails w.sf) :
    beforeB (isSpawned .worker) (isSpawned .composer) (mainRun args w env0).2.trace
      = (args.builtin_worker && primaryEnabled args) ∧
    beforeB (isSpawned .dnfJson) (isSpawned .composer) (mainRun args w env0).2.trace
      = (args.dnf_json && primaryEnabled args) ∧
    beforeB (isWaited .composer) (isTerminated .worker) (mainRun args w env0).2.trace
      = (args.builtin_worker && primaryEnabled args && !w.interruptAtWait) ∧
    beforeB (isWaited .composer) (isTerminated .dnfJson) (mainRun args w env0).2.trace
      = (args.dnf_json && primaryEnabled args && !w.interruptAtWait) ∧
    beforeB (isTerminated .worker) (isTerminated .composer) (mainRun args w env0).2.trace
      = (args.builtin_worker && primaryEnabled args && w.interruptAtWait) ∧
    beforeB (isTerminated .dnfJson) (isTerminated .composer) (mainRun args w env0).2.trace
      = (args.dnf_json && primaryEnabled args && w.interruptAtWait) := by
  obtain ⟨hres, htr, hch⟩ := mainRun_noFail args w env0 hb hs
  rw [htr]
  refine ⟨?_, ?_, ?_, ?_, ?_, ?_⟩ <;>
    (rw [beforeB_append_right _ _ _ _ (countEv_map_sockClosed _ _ (fun fd => rfl))
           (countEv_map_sockClosed _ _ (fun fd => rfl)),
         beforeB_append_left _ _ _ _ (countEv_prepTrace _ args (fun fd => rfl))
           (countEv_prepTrace _ args (fun fd => rfl))]
     cases hbw : args.builtin_worker <;> cases hdj : args.dnf_json <;>
     cases hpe : primaryEnabled args <;> cases hin : w.interruptAtWait <;> rfl)

/-- C4 (amended) witness: worker and weldr API enabled, interrupt delivered. -/
theorem claim_C4_amended_witness :
    noBindFails ⟨false, false, false, false, false⟩ ∧
    noSpawnFails ⟨false, false, false⟩ ∧
    beforeB (isSpawned .worker) (isSpawned .composer)
      (mainRun ⟨true, false, 443, false, false, true, false, 0⟩
        ⟨⟨false, false, false, false, false⟩, ⟨false, false, false⟩,
         fun _ => 101, fun _ => 0, true⟩ []).2.trace
      = ((⟨true, false, 443, false, false, true, false, 0⟩ : Args).builtin_worker &&
          primaryEnabled ⟨true, false, 443, false, false, true, false, 0⟩) :=
  ⟨⟨rfl, rfl, rfl, rfl, rfl⟩, ⟨rfl, rfl, rfl⟩,
    (claim_C4_amended ⟨true, false, 443, false, false, true, false, 0⟩
      ⟨⟨false, false, false, false, false⟩, ⟨false, false, false⟩,
       fun _ => 101, fun _ => 0, true⟩ []
      ⟨rfl, rfl, rfl, rfl, rfl⟩ ⟨rfl, rfl, rfl⟩).1⟩

/-- C5: whenever a primary server was spawned and its exit code obtained —
normally or after the graceful termination triggered by an interrupt — every
previously spawned helper receives exactly one termination request and is
reaped before the run ends, and the final result is the primary server's exit
code. -/
theorem claim_C5 (args : Args) (w : World) (env0 : Env)
    (hb : noBindFails w.bf) (hs : noSpawnFails w.sf)
    (hp : primaryEnabled args = true) :
    (mainRun args w env0).1 = .ok (w.exitCode .composer) ∧
    countEv (isTerminated .worker) (mainRun args w env0).2.trace
      = (if args.builtin_worker then 1 else 0) ∧
    countEv (isWaited .worker) (mainRun args w env0).2.trace
      = (if args.builtin_worker then 1 else 0) ∧
    countEv (isTerminated .dnfJson) (mainRun args w env0).2.trace
      = (if args.dnf_json then 1 else 0) ∧
    countEv (isWaited .dnfJson) (mainRun args w env0).2.trace
      = (if args.dnf_json then 1 else 0) := by
  obtain ⟨hres, htr, hch⟩ := mainRun_noFail args w env0 hb hs
  rw [htr, hres, hp]
  refine ⟨rfl, ?_, ?_, ?_, ?_⟩ <;>
    (rw [countEv_append, countEv_append,
         countEv_prepTrace _ args (fun fd => rfl),
         countEv_map_sockClosed _ _ (fun fd => rfl)]
     cases hbw : args.builtin_worker <;> cases hdj : args.dnf_json <;>
     cases hin : w.interruptAtWait <;> rfl)

/-- C5 witness (spec scenario B): composer-api and local-worker features with
the builtin worker, primary exits with code 3, final result is 3 and the
worker helper is terminated once and reaped. -/
theorem claim_C5_witness :
    noBindFails ⟨false, false, false, false, false⟩ ∧
    noSpawnFails ⟨false, false, false⟩ ∧
    primaryEnabled ⟨true, true, 443, true, false, false, false, 0⟩ = true ∧
    (mainRun ⟨true, true, 443, true, false, false, false, 0⟩
      ⟨⟨false, false, false, false, false⟩, ⟨false, false, false⟩,
       fun _ => 7, fun _ => 3, false⟩ []).1 = .ok 3 :=
  ⟨⟨rfl, rfl, rfl, rfl, rfl⟩, ⟨rfl, rfl, rfl⟩, rfl,
    (claim_C5 ⟨true, true, 443, true, false, false, false, 0⟩
      ⟨⟨false, false, false, false, false⟩, ⟨false, false, false⟩,
       fun _ => 7, fun _ => 3, false⟩ []
      ⟨rfl, rfl, rfl, rfl, rfl⟩ ⟨rfl, rfl, rfl⟩ rfl).1⟩

/-- C7: the primary server is spawned exactly when at least one of the weldr,
composer-api, local-worker or remote-worker features is enabled, and it is
spawned last: the local worker first, then the dnf-json helper, each only if
enabled, then the primary server. -/
theorem claim_C7 (args : Args) (w : World) (env0 : Env)
    (hb : noBindFails w.bf) (hs : noSpawnFails w.sf) :
    countEv (isSpawned .composer) (mainRun args w env0).2.trace
      = (if primaryEnabled args then 1 else 0) ∧
    countEv (isSpawned .worker) (mainRun args w env0).2.trace
      = (if args.builtin_worker then 1 else 0) ∧
    countEv (isSpawned .dnfJson) (mainRun args w env0).2.trace
      = (if args.dnf_json then 1 else 0) ∧
    beforeB (isSpawned .worker) (isSpawned .dnfJson) (mainRun args w env0).2.trace
      = (args.builtin_worker && args.dnf_json) ∧
    beforeB (isSpawned .worker) (isSpawned .composer) (mainRun args w env0).2.trace
      = (args.builtin_worker && primaryEnabled args) ∧
    beforeB (isSpawned .dnfJson) (isSpawned .composer) (mainRun args w env0).2.trace
      = (args.dnf_json && primaryEnabled args) := by
  obtain ⟨hres, htr, hch⟩ := mainRun_noFail args w env0 hb hs
  rw [htr]
  refine ⟨?_, ?_, ?_, ?_, ?_, ?_⟩ <;>
    (first
      | rw [countEv_append, countEv_append,
            countEv_prepTrace _ args (fun fd => rfl),
            countEv_map_sockClosed _ _ (fun fd => rfl)]
      | rw [beforeB_append_right _ _ _ _ (countEv_map_sockClosed _ _ (fun fd => rfl))
              (countEv_map_sockClosed _ _ (fun fd => rfl)),
            beforeB_append_left _ _ _ _ (countEv_prepTrace _ args (fun fd => rfl))
              (countEv_prepTrace _ args (fun fd => rfl))]) <;>
    (cases hbw : args.builtin_worker <;> cases hdj : args.dnf_json <;>
     cases hpe : primaryEnabled args <;> cases hin : w.interruptAtWait <;> rfl)

/-- C7 witness: all children enabled; the worker is spawned first, then the
dnf-json helper, then the composer. -/
theorem claim_C7_witness :
    noBindFails ⟨false, false, false, false, false⟩ ∧
    noSpawnFails ⟨false, false, false⟩ ∧
    countEv (isSpawned .composer)
      (mainRun ⟨true, true, 443, false, false, false, true, 0⟩
        ⟨⟨false, false, false, false, false⟩, ⟨false, false, false⟩,
         fun _ => 9, fun _ => 0, false⟩ []).2.trace
      = (if primaryEnabled ⟨true, true, 443, false, false, false, true, 0⟩ then 1 else 0) :=
  ⟨⟨rfl, rfl, rfl, rfl, rfl⟩, ⟨rfl, rfl, rfl⟩,
    (claim_C7 ⟨true, true, 443, false, false, false, true, 0⟩
      ⟨⟨false, false, false, false, false⟩, ⟨false, false, false⟩,
       fun _ => 9, fun _ => 0, false⟩ []
      ⟨rfl, rfl, rfl, rfl, rfl⟩ ⟨rfl, rfl, rfl⟩).1⟩

/-- C8: if no primary-dependent feature is enabled, no primary server is
spawned or waited on, any spawned helpers are still reaped, and the run's
result is success (0) independent of the helpers' own exit codes. -/
theorem claim_C8 (args : Args) (w : World) (env0 : Env)
    (hb : noBindFails w.bf) (hs : noSpawnFails w.sf)
    (hp : primaryEnabled args = false) :
    (mainRun args w env0).1 = .ok 0 ∧
    countEv (isSpawned .composer) (mainRun args w env0).2.trace = 0 ∧
    countEv (isWaited .composer) (mainRun args w env0).2.trace = 0 ∧
    countEv (isWaited .worker) (mainRun args w env0).2.trace
      = (if args.builtin_worker then 1 else 0) ∧
    countEv (isWaited .dnfJson) (mainRun args w env0).2.trace
      = (if args.dnf_json then 1 else 0) := by
  obtain ⟨hres, htr, hch⟩ := mainRun_noFail args w env0 hb hs
  rw [htr, hres, hp]
  refine ⟨rfl, ?_, ?_, ?_, ?_⟩ <;>
    (rw [countEv_append, countEv_append,
         countEv_prepTrace _ args (fun fd => rfl),
         countEv_map_sockClosed _ _ (fun fd => rfl)]
     cases hbw : args.builtin_worker <;> cases hdj : args.dnf_json <;>
     cases hin : w.interruptAtWait <;> rfl)

/-- C8 witness (spec scenario D): only the dnf-json helper enabled, helper
exit code 5 — the helper is reaped and the run still returns success. -/
theorem claim_C8_witness :
    noBindFails ⟨false, false, false, false, false⟩ ∧
    noSpawnFails ⟨false, false, false⟩ ∧
    primaryEnabled ⟨false, false, 443, false, false, false, true, 0⟩ = false ∧
    (mainRun ⟨false, false, 443, false, false, false, true, 0⟩
      ⟨⟨false, false, false, false, false⟩, ⟨false, false, false⟩,
       fun _ => 11, fun _ => 5, false⟩ []).1 = .ok 0 :=
  ⟨⟨rfl, rfl, rfl, rfl, rfl⟩, ⟨rfl, rfl, rfl⟩, rfl,
    (claim_C8 ⟨false, false, 443, false, false, false, true, 0⟩
      ⟨⟨false, false, false, false, false⟩, ⟨false, false, false⟩,
       fun _ => 11, fun _ => 5, false⟩ []
      ⟨rfl, rfl, rfl, rfl, rfl⟩ ⟨rfl, rfl, rfl⟩ rfl).1⟩

/-- C10: because `LISTEN_FDS` and `LISTEN_FDNAMES` are written into the
supervisor's global environment during socket preparation, before any child is
spawned, the worker helper inherits both values describing the primary
server's socket set even though no descriptor is passed to it; the dnf-json
helper's own `LISTEN_FDS=1` overrides the count, but the primary's
`LISTEN_FDNAMES` persists in its environment. -/
theorem claim_C10 (args : Args) (w : World) (env0 : Env)
    (hb : noBindFails w.bf) (hs : noSpawnFails w.sf) :
    childEnvVal .worker "LISTEN_FDS" (mainRun args w env0).2.children
      = (if args.builtin_worker then some (toString (specNames args).length) else none) ∧
    childEnvVal .worker "LISTEN_FDNAMES" (mainRun args w env0).2.children
      = (if args.builtin_worker then some (String.intercalate ":" (specNames args)) else none) ∧
    childEnvVal .dnfJson "LISTEN_FDS" (mainRun args w env0).2.children
      = (if args.dnf_json then some "1" else none) ∧
    childEnvVal .dnfJson "LISTEN_FDNAMES" (mainRun args w env0).2.children
      = (if args.dnf_json then some (String.intercalate ":" (specNames args)) else none) := by
  obtain ⟨hres, htr, hch⟩ := mainRun_noFail args w env0 hb hs
  rw [hch]
  cases hbw : args.builtin_worker <;> cases hdj : args.dnf_json <;>
    cases hpe : primaryEnabled args <;> exact ⟨rfl, rfl, rfl, rfl⟩

/-- C10 witness: weldr and composer-api sockets prepared, both helpers
enabled; the worker sees `LISTEN_FDS=2` with the primary's names, the
dnf-json helper sees `LISTEN_FDS=1` but still the primary's names. -/
theorem claim_C10_witness :
    noBindFails ⟨false, false, false, false, false⟩ ∧
    noSpawnFails ⟨false, false, false⟩ ∧
    childEnvVal .dnfJson "LISTEN_FDNAMES"
      (mainRun ⟨true, true, 443, false, false, true, true, 0⟩
        ⟨⟨false, false, false, false, false⟩, ⟨false, false, false⟩,
         fun _ => 21, fun _ => 0, false⟩ []).2.children
      = (if (⟨true, true, 443, false, false, true, true, 0⟩ : Args).dnf_json
         then some (String.intercalate ":" (specNames ⟨true, true, 443, false, false, true, true, 0⟩))
         else none) :=
  ⟨⟨rfl, rfl, rfl, rfl, rfl⟩, ⟨rfl, rfl, rfl⟩,
    (claim_C10 ⟨true, true, 443, false, false, true, true, 0⟩
      ⟨⟨false, false, false, false, false⟩, ⟨false, false, false⟩,
       fun _ => 21, fun _ => 0, false⟩ []
      ⟨rfl, rfl, rfl, rfl, rfl⟩ ⟨rfl, rfl, rfl⟩).2.2.2⟩

/-- C6: if an internal failure (including a spawn failure of a later child)
occurs after children may exist, every previously spawned child is forcibly
killed and no others are, no child receives a graceful termination request,
no child is waited on, and the original error is propagated to the caller. -/
theorem claim_C6 (args : Args) (w : World) (env0 : Env)
    (hb4 : w.bf.weldr = false ∧ w.bf.composerApi = false ∧
           w.bf.localWorker = false ∧ w.bf.remoteWorker = false)
    (hf : failScenario args w) :
    isInternalErr (mainRun args w env0).1 = true ∧
    countEv (isKilled .worker) (mainRun args w env0).2.trace
      = countEv (isSpawned .worker) (mainRun args w env0).2.trace ∧
    countEv (isKilled .dnfJson) (mainRun args w env0).2.trace
      = countEv (isSpawned .dnfJson) (mainRun args w env0).2.trace ∧
    countEv (isKilled .composer) (mainRun args w env0).2.trace
      = countEv (isSpawned .composer) (mainRun args w env0).2.trace ∧
    countEv isTerminatedAny (mainRun args w env0).2.trace = 0 ∧
    countEv isWaitedAny (mainRun args w env0).2.trace = 0 := by
  obtain ⟨⟨b1, b2, b3, b4, b5⟩, ⟨s1, s2, s3⟩, pid, ec, intr⟩ := w
  obtain ⟨h1, h2, h3, h4⟩ := hb4
  subst h1 h2 h3 h4
  rcases hf with ⟨hdj, hw, hb5⟩ | ⟨hdj, hw, hb5, hsd⟩ | ⟨hp, hw, himp, hsc⟩
  · subst hw hb5
    have hprep := prepare_sockets_ok args ⟨false, false, false, false, true⟩ env0
      ⟨rfl, rfl, rfl, rfl⟩
    refine ⟨?_, ?_, ?_, ?_, ?_, ?_⟩ <;>
      (simp only [mainRun, run, prepDispatch, hprep]
       cases hbw : args.builtin_worker <;>
         simp [tryBody, spawnWorkerStep, spawnDnfStep, spawn_worker, spawn_dnf_json,
               popen, socketCreate, enterClosing, runDispatch, bareHandler, procKill,
               exitStackClose, hdj, hbw, prepSt, isInternalErr, countEv_append, countEv,
               isKilled, isSpawned, isTerminatedAny, isWaitedAny,
               countEv_prepTrace, countEv_map_sockClosed])
  · subst hw hb5 hsd
    have hprep := prepare_sockets_ok args ⟨false, false, false, false, false⟩ env0
      ⟨rfl, rfl, rfl, rfl⟩
    refine ⟨?_, ?_, ?_, ?_, ?_, ?_⟩ <;>
      (simp only [mainRun, run, prepDispatch, hprep]
       cases hbw : args.builtin_worker <;>
         simp [tryBody, spawnWorkerStep, spawnDnfStep, spawn_worker, spawn_dnf_json,
               popen, socketCreate, enterClosing, runDispatch, bareHandler, procKill,
               exitStackClose, hdj, hbw, prepSt, isInternalErr, countEv_append, countEv,
               isKilled, isSpawned, isTerminatedAny, isWaitedAny,
               countEv_prepTrace, countEv_map_sockClosed])
  · subst hw hsc
    by_cases hdj : args.dnf_json = true
    · obtain ⟨hd1, hd2⟩ := himp hdj
      subst hd1 hd2
      have hprep := prepare_sockets_ok args ⟨false, false, false, false, false⟩ env0
        ⟨rfl, rfl, rfl, rfl⟩
      refine ⟨?_, ?_, ?_, ?_, ?_, ?_⟩ <;>
        (simp only [mainRun, run, prepDispatch, hprep]
         cases hbw : args.builtin_worker <;>
           simp [tryBody, spawnWorkerStep, spawnDnfStep, spawnComposerStep, spawn_worker,
                 spawn_dnf_json, spawn_composer, popen, socketCreate, enterClosing,
                 runDispatch, bareHandler, procKill, exitStackClose, hdj, hbw, hp, prepSt,
                 isInternalErr, countEv_append, countEv, isKilled, isSpawned,
                 isTerminatedAny, isWaitedAny, countEv_prepTrace, countEv_map_sockClosed])
    · have hdj2 : args.dnf_json = false := by simpa using hdj
      have hprep := prepare_sockets_ok args ⟨false, false, false, false, b5⟩ env0
        ⟨rfl, rfl, rfl, rfl⟩
      refine ⟨?_, ?_, ?_, ?_, ?_, ?_⟩ <;>
        (simp only [mainRun, run, prepDispatch, hprep]
         cases hbw : args.builtin_worker <;>
           simp [tryBody, spawnWorkerStep, spawnDnfStep, spawnComposerStep, spawn_worker,
                 spawn_dnf_json, spawn_composer, popen, socketCreate, enterClosing,
                 runDispatch, bareHandler, procKill, exitStackClose, hdj2, hbw, hp, prepSt,
                 isInternalErr, countEv_append, countEv, isKilled, isSpawned,
                 isTerminatedAny, isWaitedAny, countEv_prepTrace, countEv_map_sockClosed])

/-- C6 witness: worker and dnf-json helpers running, composer spawn fails —
both helpers are killed, nothing is terminated gracefully or waited on, and
the error propagates. -/
theorem claim_C6_witness :
    ((⟨⟨false, false, false, false, false⟩, ⟨false, true, false⟩,
        fun _ => 31, fun _ => 0, false⟩ : World).bf.weldr = false ∧
      (⟨⟨false, false, false, false, false⟩, ⟨false, true, false⟩,
        fun _ => 31, fun _ => 0, false⟩ : World).bf.composerApi = false ∧
      (⟨⟨false, false, false, false, false⟩, ⟨false, true, false⟩,
        fun _ => 31, fun _ => 0, false⟩ : World).bf.localWorker = false ∧
      (⟨⟨false, false, false, false, false⟩, ⟨false, true, false⟩,
        fun _ => 31, fun _ => 0, false⟩ : World).bf.remoteWorker = false) ∧
    failScenario ⟨true, false, 443, false, false, false, true, 0⟩
      ⟨⟨false, false, false, false, false⟩, ⟨false, true, false⟩,
       fun _ => 31, fun _ => 0, false⟩ ∧
    isInternalErr (mainRun ⟨true, false, 443, false, false, false, true, 0⟩
      ⟨⟨false, false, false, false, false⟩, ⟨false, true, false⟩,
       fun _ => 31, fun _ => 0, false⟩ []).1 = true :=
  ⟨⟨rfl, rfl, rfl, rfl⟩, Or.inr (Or.inl ⟨rfl, rfl, rfl, rfl⟩),
    (claim_C6 ⟨true, false, 443, false, false, false, true, 0⟩
      ⟨⟨false, false, false, false, false⟩, ⟨false, true, false⟩,
       fun _ => 31, fun _ => 0, false⟩ []
      ⟨rfl, rfl, rfl, rfl⟩ (Or.inr (Or.inl ⟨rfl, rfl, rfl, rfl⟩))).1⟩

/-- C9: every listening socket created during a run is closed exactly once by
the end of the run, on every exit path — in the final trace, a created
descriptor has exactly one creation event and exactly one close event. -/
theorem claim_C9 (args : Args) (w : World) (env0 : Env) (fd : Nat)
    (hc : Event.sockCreated fd ∈ (mainRun args w env0).2.trace) :
    countEv (isSockCreated fd) (mainRun args w env0).2.trace = 1 ∧
    countEv (isSockClosed fd) (mainRun args w env0).2.trace = 1 := by
  have hinv : Inv (run args w (initSt env0)).2 :=
    inv_run args w _ ⟨fun fd => rfl, fun fd => rfl, List.nodup_nil,
      fun fd hfd => absurd hfd (List.not_mem_nil fd)⟩
  obtain ⟨hcnt, hcls, hnd, hsub⟩ := hinv
  have htr : (mainRun args w env0).2.trace
      = (run args w (initSt env0)).2.trace ++
        (run args w (initSt env0)).2.stack.map Event.sockClosed := rfl
  rw [htr] at hc ⊢
  have e1 : countEv (isSockCreated fd)
      ((run args w (initSt env0)).2.trace ++
        (run args w (initSt env0)).2.stack.map Event.sockClosed)
      = (run args w (initSt env0)).2.stack.count fd := by
    rw [countEv_append, hcnt fd, countEv_map_sockClosed _ _ (fun g => rfl)]
    omega
  have e2 : countEv (isSockClosed fd)
      ((run args w (initSt env0)).2.trace ++
        (run args w (initSt env0)).2.stack.map Event.sockClosed)
      = (run args w (initSt env0)).2.stack.count fd := by
    rw [countEv_append, hcls fd, countEv_map_closed_count]
    omega
  have hpos : 1 ≤ (run args w (initSt env0)).2.stack.count fd := by
    have h2 := countEv_pos_of_mem (isSockCreated fd) _ _ hc (by simp [isSockCreated])
    rw [e1] at h2
    exact h2
  have hle : (run args w (initSt env0)).2.stack.count fd ≤ 1 :=
    List.nodup_iff_count_le_one.mp hnd fd
  rw [e1, e2]
  omega

/-- C9 witness: with the weldr feature enabled and no failures, descriptor 3
is created and closed exactly once. -/
theorem claim_C9_witness :
    Event.sockCreated 3 ∈
      (mainRun ⟨false, false, 443, false, false, true, false, 0⟩
        ⟨⟨false, false, false, false, false⟩, ⟨false, false, false⟩,
         fun _ => 41, fun _ => 0, false⟩ []).2.trace ∧
    (countEv (isSockCreated 3)
      (mainRun ⟨false, false, 443, false, false, true, false, 0⟩
        ⟨⟨false, false, false, false, false⟩, ⟨false, false, false⟩,
         fun _ => 41, fun _ => 0, false⟩ []).2.trace = 1 ∧
     countEv (isSockClosed 3)
      (mainRun ⟨false, false, 443, false, false, true, false, 0⟩
        ⟨⟨false, false, false, false, false⟩, ⟨false, false, false⟩,
         fun _ => 41, fun _ => 0, false⟩ []).2.trace = 1) :=
  ⟨by decide, claim_C9 ⟨false, false, 443, false, false, true, false, 0⟩
      ⟨⟨false, false, false, false, false⟩, ⟨false, false, false⟩,
       fun _ => 41, fun _ => 0, false⟩ [] 3 (by decide)⟩

end Entrypoint
